import Mathlib

/-!
Verification of the client-side state/cache layer of the shelflife-frontend
repository: the token store (src/utils/tokenHandler.js), the HTTP client with
its request/response interceptors (src/utils/fetcher.js), the book store
(src/context/BookContext.js), the auth session coordinator
(src/context/AuthContext.js) and the shelf store (the ShelfContext module).

The JavaScript code is embedded shallowly: each stateful operation becomes a
pure Lean function from the explicit state (plus the result of the awaited
server call, supplied as a parameter) to the next state.  Asynchronous
operations suspend at their single network call; where a claim is about the
state observable while the request is in flight, the operation is embedded as
an AsyncRun record holding both the state at the suspension point and the
final state.
-/

deriving instance DecidableEq for Except

namespace ShelfLife

/-- Result of an awaited API promise: it either resolves with a value or
rejects with an error message (the message the store reads from err.message). -/
inductive ApiResult (α : Type) where
  | success (val : α)
  | failure (msg : String)
deriving Repr, DecidableEq

/-- How a store operation finishes at its own boundary: it either returns a
value normally, or lets an exception / promise rejection escape to the caller. -/
inductive OpOutcome (α : Type) where
  | returned (val : α)
  | threw (msg : String)
deriving Repr, DecidableEq

/-- Observable states of one asynchronous operation with a single awaited
network call: the state at the suspension point (while the request is in
flight, before the server has responded) and the state after the operation
completed. -/
structure AsyncRun (σ : Type) where
  atSuspension : σ
  final : σ
deriving Repr, DecidableEq

/-- JavaScript Map lookup (Map.get), on an association-list model. -/
def mapGet {α : Type} (m : List (String × α)) (k : String) : Option α :=
  (m.find? (fun p => decide (p.1 = k))).map (fun p => p.2)

/-- JavaScript Map insertion (Map.set): overwrites the entry when the key is
present, otherwise appends it (Map preserves insertion order). -/
def mapSet {α : Type} (m : List (String × α)) (k : String) (v : α) : List (String × α) :=
  if m.any (fun p => decide (p.1 = k)) then
    m.map (fun p => if p.1 = k then (k, v) else p)
  else
    m ++ [(k, v)]

/-! ## Token store — src/utils/tokenHandler.js

localStorage is modelled by the two keys the module uses
(shelflife-token and shelflife-refresh-token); each is present or absent. -/

/-- The two localStorage slots used by tokenHandler.js. -/
structure Storage where
  token : Option String
  refreshToken : Option String
deriving Repr, DecidableEq

/-- getToken: localStorage.getItem(TOKEN_KEY). -/
def getToken (s : Storage) : Option String :=
  s.token

/-- setToken: localStorage.setItem(TOKEN_KEY, token). -/
def setToken (s : Storage) (t : String) : Storage :=
  { s with token := some t }

/-- removeToken: localStorage.removeItem(TOKEN_KEY). -/
def removeToken (s : Storage) : Storage :=
  { s with token := none }

/-- The payload claims the code reads from a decoded JWT: the exp claim,
in seconds since the epoch. -/
structure JwtClaims where
  exp : Nat
deriving Repr, DecidableEq

/-- Reading a decimal digit sequence, structurally over the characters. -/
def decodeDigits : List Char → Nat → Option Nat
  | [], acc => some acc
  | c :: cs, acc =>
    if c.isDigit then decodeDigits cs (10 * acc + (c.toNat - 48)) else none

/-- Model of the external jwt-decode library used by tokenHandler.js: a
string of the shape exp=(digits) decodes to claims with that exp value;
every other string fails to decode, which in the library means throwing
InvalidTokenError.  Failure to decode is represented by none. -/
def jwtDecode (s : String) : Option JwtClaims :=
  match s.data with
  | 'e' :: 'x' :: 'p' :: '=' :: rest =>
    match rest with
    | [] => none
    | _ => (decodeDigits rest 0).map (fun n => { exp := n })
  | _ => none

/-- The error jwt-decode throws on an undecodable token. -/
inductive DecodeError where
  | invalidToken
deriving Repr, DecidableEq

/-- isTokenExpired(token) from tokenHandler.js, with the current time
(Date.now(), in milliseconds) passed explicitly.  A missing token and the
empty string are falsy in JavaScript, so both return true at once.  For any
other token the code destructures jwtDecode(token) with no try/catch around
it, so a token that fails to decode makes the function throw: that path is
the error case of the Except. -/
def isTokenExpired (token : Option String) (now : Nat) : Except DecodeError Bool :=
  match token with
  | none => .ok true
  | some t =>
    if t = "" then .ok true
    else
      match jwtDecode t with
      | none => .error .invalidToken
      | some claims => .ok (decide (claims.exp * 1000 < now))

/-! ## HTTP client — src/utils/fetcher.js -/

/-- The slice of an axios request config the interceptor touches: the
Authorization header. -/
structure RequestConfig where
  authorization : Option String
deriving Repr, DecidableEq

/-- The request interceptor of the axios instance: it reads the stored token
and, when one is present (JavaScript truthiness, so the empty string does not
count), sets the Authorization header to the bearer form.  It performs no
expiry check and no refresh. -/
def requestInterceptor (store : Storage) (config : RequestConfig) : RequestConfig :=
  match getToken store with
  | some t =>
    if t = "" then config
    else { config with authorization := some ("Bearer " ++ t) }
  | none => config

/-- Everything the axios instance does between a call site issuing a request
and the request going on the wire: the request interceptor runs on the
config.  The storage is returned alongside to make the absence of writes
observable: the interceptor only reads the token, so no refresh and no other
storage mutation happens before the request is sent. -/
def sendPrepare (store : Storage) (config : RequestConfig) : Storage × RequestConfig :=
  (store, requestInterceptor store config)

/-- The server response attached to an axios error, as far as the response
interceptor inspects it. -/
structure HttpResponse where
  status : Nat
deriving Repr, DecidableEq

/-- An axios rejection: either the server answered with a non-2xx status
(error.response is set) or no response was received. -/
inductive AxiosError where
  | withResponse (resp : HttpResponse)
  | noResponse
deriving Repr, DecidableEq

/-- The response interceptor error handler of the axios instance: when
error.response exists and its status is 401 it removes the stored token
(and then triggers a login redirect, a UI effect outside this state).  Every
other error leaves the storage untouched.  The handler sees only the error,
never which store issued the call. -/
def responseErrorInterceptor (store : Storage) (err : AxiosError) : Storage :=
  match err with
  | .withResponse resp =>
    if resp.status = 401 then removeToken store else store
  | .noResponse => store

/-! ## Book store — src/context/BookContext.js -/

/-- A book as the book store handles it: the identifier, the title and the
shelf assignment are the fields the store logic reads or writes. -/
structure Book where
  id : String
  title : String
  shelf : String
deriving Repr, DecidableEq

/-- A value stored in the book cache Map: the allBooks key and shelf keys
hold book lists, while getBookById stores a single book under its id. -/
inductive CacheVal where
  | listVal (books : List Book)
  | bookVal (b : Book)
deriving Repr, DecidableEq

/-- Reading a list-valued cache entry.  In the source the list-valued keys
(allBooks and shelf ids) only ever hold lists, so the single-book branch is
unreachable on those keys. -/
def CacheVal.toBooks : CacheVal → List Book
  | .listVal books => books
  | .bookVal b => [b]

/-- The state held by BookProvider: the books list, the single-book slot,
the loading flag, the error message, the cache Map and the search results. -/
structure BookState where
  books : List Book
  book : Option Book
  searchResults : List Book
  isLoading : Bool
  error : Option String
  cache : List (String × CacheVal)
deriving Repr, DecidableEq

/-- fetchBooks: serves the allBooks cache entry when present without calling
the server; otherwise awaits getAllBooks and on success replaces books and
caches the list, on failure records the message on error.  The try/catch has
no rethrow, so the operation always returns normally. -/
def fetchBooks (st : BookState) (serverResult : ApiResult (List Book)) :
    BookState × OpOutcome Unit :=
  match mapGet st.cache "allBooks" with
  | some v => ({ st with books := v.toBooks, isLoading := false }, .returned ())
  | none =>
    match serverResult with
    | .success fetchedBooks =>
      ({ st with books := fetchedBooks,
                 cache := mapSet st.cache "allBooks" (.listVal fetchedBooks),
                 isLoading := false }, .returned ())
    | .failure msg =>
      ({ st with error := some msg, isLoading := false }, .returned ())

/-- updateBookShelf(bookId, newShelfId): the body awaits the API call as its
very first action, so no local state changes before the server responds
(atSuspension is the entry state).  On success it maps over books, patching
the shelf field of the matching entry, and stores the patched list under the
allBooks cache key; on failure it only records the error message. -/
def updateBookShelf (st : BookState) (bookId newShelfId : String)
    (serverResult : ApiResult Book) : AsyncRun BookState :=
  { atSuspension := st
    final :=
      match serverResult with
      | .success _updatedBook =>
        let updatedBooks := st.books.map (fun b =>
          if b.id = bookId then { b with shelf := newShelfId } else b)
        { st with books := updatedBooks,
                  cache := mapSet st.cache "allBooks" (.listVal updatedBooks) }
      | .failure msg => { st with error := some msg } }

/-- addBook(bookData): sets isLoading, awaits createBook, and on success
appends the returned book to books and stores the new list under the
allBooks cache key (no per-id cache entry is written); on failure it records
the error message.  The finally clause clears isLoading on both paths. -/
def addBook (st : BookState) (serverResult : ApiResult Book) : BookState :=
  match serverResult with
  | .success newBook =>
    let updatedBooks := st.books ++ [newBook]
    { st with books := updatedBooks,
              cache := mapSet st.cache "allBooks" (.listVal updatedBooks),
              isLoading := false }
  | .failure msg => { st with error := some msg, isLoading := false }

/-- searchBooks(query): awaits the search API and on success writes the
results into searchResults only; on failure it records the error message.
Neither path touches books, book or cache. -/
def searchBooks (st : BookState) (serverResult : ApiResult (List Book)) : BookState :=
  match serverResult with
  | .success results => { st with searchResults := results, isLoading := false }
  | .failure msg => { st with error := some msg, isLoading := false }

/-! ## Session coordinator — src/context/AuthContext.js -/

/-- The state AuthProvider holds, together with the token storage it reads
and writes through tokenHandler.js.  user is the decoded JWT payload;
profile and settings are the opaque payloads the profile and settings API
calls return. -/
structure AuthState where
  storage : Storage
  user : Option JwtClaims
  profile : Option String
  settings : Option String
  isLoading : Bool
  error : Option String
deriving Repr, DecidableEq

/-- logout(): removes the stored token and clears the user, profile and
settings state. -/
def logout (st : AuthState) : AuthState :=
  { st with storage := removeToken st.storage,
            user := none, profile := none, settings := none }

/-- updatePassword(currentPassword, newPassword): awaits the password API
call and on success calls logout(); on failure it records the error message
and does not log out. -/
def updatePassword (st : AuthState) (serverResult : ApiResult Unit) : AuthState :=
  match serverResult with
  | .success _ => logout st
  | .failure msg => { st with error := some msg }

/-! ## Shelf store — the ShelfContext module (ShelfProvider) -/

/-- The authenticated user as the shelf store reads it from AuthContext:
only the _id field is used (for cache keys and request payloads). -/
structure UserData where
  _id : String
deriving Repr, DecidableEq

/-- A shelf resource: the identifier, the name and the contained book ids. -/
structure Shelf where
  _id : String
  name : String
  books : List String
deriving Repr, DecidableEq

/-- The state ShelfProvider holds: the user it sees through useAuth, the
shelves list, the loading flag, the error message and the cache Map keyed
by shelves-(userId). -/
structure ShelfState where
  user : Option UserData
  shelves : List Shelf
  isLoading : Bool
  error : Option String
  cache : List (String × List Shelf)
deriving Repr, DecidableEq

/-- The network calls the shelf store can issue, recorded so that the
absence of a call is provable. -/
inductive ShelfApiCall where
  | getShelvesByUserId (userId : String)
  | getShelfById (shelfId : String)
  | createShelf (userId name : String)
  | updateShelf (shelfId : String)
  | deleteShelf (shelfId : String)
  | addBookToShelf (shelfId bookId : String)
  | removeBookFromShelf (shelfId bookId : String)
deriving Repr, DecidableEq

/-- fetchShelves: returns at once when no user is authenticated; serves the
shelves-(userId) cache entry when present; otherwise sets loading, clears
the error, awaits getShelvesByUserId and on success stores and caches the
list, on failure records the error message; finally clears loading. -/
def fetchShelves (st : ShelfState) (serverResult : ApiResult (List Shelf)) :
    ShelfState × List ShelfApiCall :=
  match st.user with
  | none => (st, [])
  | some u =>
    let cacheKey := "shelves-" ++ u._id
    match mapGet st.cache cacheKey with
    | some cached => ({ st with shelves := cached, isLoading := false }, [])
    | none =>
      match serverResult with
      | .success fetchedShelves =>
        ({ st with shelves := fetchedShelves,
                   cache := mapSet st.cache cacheKey fetchedShelves,
                   isLoading := false, error := none },
         [.getShelvesByUserId u._id])
      | .failure msg =>
        ({ st with error := some msg, isLoading := false },
         [.getShelvesByUserId u._id])

/-- getShelfById(shelfId): returns at once when no user is authenticated;
otherwise clears the error, awaits the API call and returns the shelf on
success; on failure it records the error message and then rethrows the
error (throw err), so the rejection escapes the store boundary. -/
def getShelfById (st : ShelfState) (shelfId : String) (serverResult : ApiResult Shelf) :
    ShelfState × List ShelfApiCall × OpOutcome (Option Shelf) :=
  match st.user with
  | none => (st, [], .returned none)
  | some _ =>
    let st1 := { st with error := none }
    match serverResult with
    | .success shelf => (st1, [.getShelfById shelfId], .returned (some shelf))
    | .failure msg =>
      ({ st1 with error := some msg }, [.getShelfById shelfId], .threw msg)

/-- createShelf(shelfName): returns at once when no user is authenticated;
otherwise clears the error, awaits createShelf and on success appends the
returned shelf and refreshes the cache entry; on failure it records the
error message. -/
def createShelf (st : ShelfState) (shelfName : String) (serverResult : ApiResult Shelf) :
    ShelfState × List ShelfApiCall :=
  match st.user with
  | none => (st, [])
  | some u =>
    match serverResult with
    | .success newShelf =>
      let updatedShelves := st.shelves ++ [newShelf]
      ({ st with error := none, shelves := updatedShelves,
                 cache := mapSet st.cache ("shelves-" ++ u._id) updatedShelves },
       [.createShelf u._id shelfName])
    | .failure msg =>
      ({ st with error := some msg }, [.createShelf u._id shelfName])

/-- updateShelf(shelfId, updateData): returns at once when no user is
authenticated; otherwise clears the error, awaits updateShelf and on
success replaces the matching entry and refreshes the cache entry; on
failure it records the error message. -/
def updateShelf (st : ShelfState) (shelfId : String) (serverResult : ApiResult Shelf) :
    ShelfState × List ShelfApiCall :=
  match st.user with
  | none => (st, [])
  | some u =>
    match serverResult with
    | .success updatedShelf =>
      let updatedShelves := st.shelves.map (fun sh =>
        if sh._id = shelfId then updatedShelf else sh)
      ({ st with error := none, shelves := updatedShelves,
                 cache := mapSet st.cache ("shelves-" ++ u._id) updatedShelves },
       [.updateShelf shelfId])
    | .failure msg =>
      ({ st with error := some msg }, [.updateShelf shelfId])

/-- deleteShelf(shelfId): returns at once when no user is authenticated;
otherwise clears the error, awaits deleteShelf and on success filters the
entry out and refreshes the cache entry; on failure it records the error
message. -/
def deleteShelf (st : ShelfState) (shelfId : String) (serverResult : ApiResult Unit) :
    ShelfState × List ShelfApiCall :=
  match st.user with
  | none => (st, [])
  | some u =>
    match serverResult with
    | .success _ =>
      let updatedShelves := st.shelves.filter (fun sh => decide (sh._id ≠ shelfId))
      ({ st with error := none, shelves := updatedShelves,
                 cache := mapSet st.cache ("shelves-" ++ u._id) updatedShelves },
       [.deleteShelf shelfId])
    | .failure msg =>
      ({ st with error := some msg }, [.deleteShelf shelfId])

/-- addBookToShelf(shelfId, bookId): returns at once when no user is
authenticated; otherwise clears the error, awaits addBookToShelf and on
success replaces the matching shelf with the returned one and refreshes the
cache entry; on failure it records the error message. -/
def addBookToShelf (st : ShelfState) (shelfId bookId : String)
    (serverResult : ApiResult Shelf) : ShelfState × List ShelfApiCall :=
  match st.user with
  | none => (st, [])
  | some u =>
    match serverResult with
    | .success updatedShelf =>
      let updatedShelves := st.shelves.map (fun sh =>
        if sh._id = shelfId then updatedShelf else sh)
      ({ st with error := none, shelves := updatedShelves,
                 cache := mapSet st.cache ("shelves-" ++ u._id) updatedShelves },
       [.addBookToShelf shelfId bookId])
    | .failure msg =>
      ({ st with error := some msg }, [.addBookToShelf shelfId bookId])

/-- removeBookFromShelf(shelfId, bookId): returns at once when no user is
authenticated; otherwise clears the error, awaits removeBookFromShelf and on
success replaces the matching shelf with the returned one and refreshes the
cache entry; on failure it records the error message. -/
def removeBookFromShelf (st : ShelfState) (shelfId bookId : String)
    (serverResult : ApiResult Shelf) : ShelfState × List ShelfApiCall :=
  match st.user with
  | none => (st, [])
  | some u =>
    match serverResult with
    | .success updatedShelf =>
      let updatedShelves := st.shelves.map (fun sh =>
        if sh._id = shelfId then updatedShelf else sh)
      ({ st with error := none, shelves := updatedShelves,
                 cache := mapSet st.cache ("shelves-" ++ u._id) updatedShelves },
       [.removeBookFromShelf shelfId bookId])
    | .failure msg =>
      ({ st with error := some msg }, [.removeBookFromShelf shelfId bookId])

/-! ## Concrete sample values -/

/-- A sample value of Date.now() in milliseconds. -/
def sampleNow : Nat := 1700000000000

/-- A decodable credential whose exp claim (1 second) is long past sampleNow. -/
def expiredToken : String := "exp=1"

/-- A storage holding the expired credential. -/
def expiredStore : Storage := { token := some expiredToken, refreshToken := none }

/-- A sample book sitting on the wantToRead shelf. -/
def dune : Book := { id := "b1", title := "Dune", shelf := "wantToRead" }

/-- A book store holding exactly the sample book. -/
def oneBookState : BookState :=
  { books := [dune], book := none, searchResults := [], isLoading := false,
    error := none, cache := [] }

/-- The empty book store, as right after mounting. -/
def emptyBookState : BookState :=
  { books := [], book := none, searchResults := [], isLoading := true,
    error := none, cache := [] }

/-- The book the server echoes back for the create call of claim C6. -/
def createdBook : Book := { id := "1", title := "X", shelf := "" }

/-- A sample authenticated user. -/
def sampleUser : UserData := { _id := "u1" }

/-- A shelf store seen by an authenticated user. -/
def sampleShelfState : ShelfState :=
  { user := some sampleUser, shelves := [], isLoading := false,
    error := none, cache := [] }

/-- A shelf store with no authenticated user. -/
def signedOutShelfState : ShelfState :=
  { user := none, shelves := [], isLoading := true, error := none, cache := [] }

/-! ## Claims -/

/-- Claim C1, counterexample: with a concrete store holding the book b1 on
shelf wantToRead, calling updateBookShelf(b1, read) does not change the
stored shelf before the server responds: at the suspension point the entry
still reads wantToRead, not read.  The source applies the patch only after
the awaited call succeeds, so the update is not optimistic and the claimed
immediate change to the new shelf does not happen. -/
theorem C1_counterexample :
    ((updateBookShelf oneBookState "b1" "read" (.failure "network error")).atSuspension.books.find?
      (fun b => decide (b.id = "b1"))).map Book.shelf = some "wantToRead" ∧
    some "wantToRead" ≠ some ("read" : String) := by
  decide

/-- Claim C1 (amended): updateShelfAssignment applies no local change before
the server responds (the state at the suspension point is the entry state);
when the server call fails, the books list is unchanged, so an entry whose
shelf was s0 still has shelf s0, and the error field records the failure;
when the call succeeds, the matching entry has its shelf field patched to
the new shelf. -/
theorem C1_updateBookShelf_amended (st : BookState) (bookId s1 msg : String) (b : Book) :
    (updateBookShelf st bookId s1 (.failure msg)).atSuspension = st ∧
    (updateBookShelf st bookId s1 (.failure msg)).final.books = st.books ∧
    (updateBookShelf st bookId s1 (.failure msg)).final.error = some msg ∧
    (updateBookShelf st bookId s1 (.success b)).final.books =
      st.books.map (fun x => if x.id = bookId then { x with shelf := s1 } else x) :=
  ⟨rfl, rfl, rfl, rfl⟩

/-- Claim C2, counterexample: a stored credential that is expired (its exp
claim lies before the sample clock) is attached verbatim as the bearer
Authorization header by the request pipeline, and the storage comes through
unchanged: no refresh was attempted before the request went out. -/
theorem C2_counterexample :
    isTokenExpired (some expiredToken) sampleNow = .ok true ∧
    sendPrepare expiredStore { authorization := none } =
      (expiredStore, { authorization := some ("Bearer " ++ expiredToken) }) := by
  decide

/-- Claim C2 (amended): the request interceptor attaches whatever non-empty
credential is stored, with no expiry check and no refresh attempt: for every
storage and config, when a non-empty token is stored the prepared request
carries it as the bearer Authorization header and the storage is unchanged,
whether or not the token is expired. -/
theorem C2_request_attaches_stored_token (store : Storage) (config : RequestConfig)
    (t : String) (h : getToken store = some t) (hne : t ≠ "") :
    sendPrepare store config =
      (store, { config with authorization := some ("Bearer " ++ t) }) := by
  simp [sendPrepare, requestInterceptor, h, hne]

/-- Claim C2, witness: the amended theorem applied to the expired sample
credential. -/
theorem C2_witness :
    sendPrepare expiredStore { authorization := none } =
      (expiredStore, { authorization := some ("Bearer " ++ expiredToken) }) :=
  C2_request_attaches_stored_token expiredStore { authorization := none }
    expiredToken rfl (by decide)

/-- Claim C3, counterexample: a syntactically invalid credential string makes
isTokenExpired throw the decode error instead of returning true: the decode
call has no try/catch around it, so the fail-closed behaviour the claim
states does not hold on undecodable input. -/
theorem C3_counterexample :
    isTokenExpired (some "not-a-jwt") sampleNow = .error .invalidToken ∧
    isTokenExpired (some "not-a-jwt") sampleNow ≠ .ok true := by
  decide

/-- Claim C3 (amended): isTokenExpired returns true when the credential is
absent and when the decoded exp claim is in the past; a non-empty credential
that fails to decode makes the function throw the decode error rather than
return true. -/
theorem C3_isTokenExpired_amended (t : String) (c : JwtClaims) (now : Nat) :
    (isTokenExpired none now = .ok true) ∧
    (jwtDecode t = some c → c.exp * 1000 < now → isTokenExpired (some t) now = .ok true) ∧
    (t ≠ "" → jwtDecode t = none → isTokenExpired (some t) now = .error .invalidToken) := by
  refine ⟨rfl, ?_, ?_⟩
  · intro hdec hlt
    by_cases ht : t = ""
    · subst ht; rfl
    · simp [isTokenExpired, ht, hdec, hlt]
  · intro hne hdec
    simp [isTokenExpired, hne, hdec]

/-- Claim C3, witness: the amended theorem applied to the expired sample
credential and to the absent credential. -/
theorem C3_witness :
    isTokenExpired (some "exp=1") sampleNow = .ok true :=
  (C3_isTokenExpired_amended "exp=1" { exp := 1 } sampleNow).2.1 (by decide) (by decide)

/-- Claim C4: whenever the server responds with HTTP status 401, the
response interceptor error handler removes the stored token, so afterwards
the token store credential is absent.  The handler only sees the error
object, never which resource store issued the call, so this holds for every
caller. -/
theorem C4_unauthorized_clears_token (store : Storage) (resp : HttpResponse)
    (h : resp.status = 401) :
    getToken (responseErrorInterceptor store (.withResponse resp)) = none := by
  simp [responseErrorInterceptor, h, removeToken, getToken]

/-- Claim C4, witness: a 401 response against the sample storage leaves the
credential absent. -/
theorem C4_witness :
    getToken (responseErrorInterceptor expiredStore (.withResponse { status := 401 })) = none :=
  C4_unauthorized_clears_token expiredStore { status := 401 } rfl

/-- Claim C5, counterexample: with an authenticated user, getShelfById on a
failing call records the failure on the error field and then rethrows it,
so the rejection escapes the store boundary: the outcome at the boundary is
a throw, refuting the claim that no resource store operation throws or
rejects past its boundary. -/
theorem C5_counterexample :
    (getShelfById sampleShelfState "s1" (.failure "server down")).2.2 = .threw "server down" ∧
    (getShelfById sampleShelfState "s1" (.failure "server down")).1.error = some "server down" := by
  decide

/-- Claim C5 (amended): failing calls are recorded on the error field at the
store boundary; fetchBooks (like the other book store operations) returns
normally after recording the failure, while getShelfById records the failure
and additionally rethrows it to its caller. -/
theorem C5_errors_recorded_amended (bst : BookState) (sst : ShelfState) (u : UserData)
    (shelfId msg msg2 : String)
    (hc : mapGet bst.cache "allBooks" = none) (hu : sst.user = some u) :
    (fetchBooks bst (.failure msg)).1.error = some msg ∧
    (fetchBooks bst (.failure msg)).2 = .returned () ∧
    (getShelfById sst shelfId (.failure msg2)).1.error = some msg2 ∧
    (getShelfById sst shelfId (.failure msg2)).2.2 = .threw msg2 := by
  refine ⟨?_, ?_, ?_, ?_⟩ <;> simp [fetchBooks, getShelfById, hc, hu]

/-- Claim C5, witness: the amended theorem applied to the empty book store
and the sample shelf store. -/
theorem C5_witness :
    (fetchBooks emptyBookState (.failure "boom")).1.error = some "boom" ∧
    (fetchBooks emptyBookState (.failure "boom")).2 = .returned () ∧
    (getShelfById sampleShelfState "s1" (.failure "down")).1.error = some "down" ∧
    (getShelfById sampleShelfState "s1" (.failure "down")).2.2 = .threw "down" :=
  C5_errors_recorded_amended emptyBookState sampleShelfState sampleUser "s1" "boom" "down" rfl rfl

/-- Claim C6, counterexample: creating a book on the empty store, with the
server echoing the book with id 1, leaves no cache entry under the key 1:
the items list holds the returned book, but the id-keyed part of the state
does not contain it under its id, because addBook only rewrites the
allBooks cache entry. -/
theorem C6_counterexample :
    (addBook emptyBookState (.success createdBook)).books = [createdBook] ∧
    mapGet (addBook emptyBookState (.success createdBook)).cache "1" = none := by
  decide

/-- Claim C6 (amended): create on the empty book store appends the returned
resource: on success the items list is exactly that resource and the cached
allBooks list is exactly that resource, but no per-id cache entry is written
for its id; on failure the items list and the cache are unchanged and the
error field records the failure. -/
theorem C6_addBook_amended (b : Book) (msg : String) (hb : b.id ≠ "allBooks") :
    (addBook emptyBookState (.success b)).books = [b] ∧
    mapGet (addBook emptyBookState (.success b)).cache "allBooks" = some (.listVal [b]) ∧
    mapGet (addBook emptyBookState (.success b)).cache b.id = none ∧
    (addBook emptyBookState (.failure msg)).books = emptyBookState.books ∧
    (addBook emptyBookState (.failure msg)).cache = emptyBookState.cache ∧
    (addBook emptyBookState (.failure msg)).error = some msg := by
  refine ⟨rfl, ?_, ?_, rfl, rfl, rfl⟩
  · simp [addBook, emptyBookState, mapSet, mapGet, List.find?]
  · simp [addBook, emptyBookState, mapSet, mapGet, List.find?, Ne.symm hb]

/-- Claim C6, witness: the amended theorem applied to the echoed sample
book. -/
theorem C6_witness :
    (addBook emptyBookState (.success createdBook)).books = [createdBook] ∧
    mapGet (addBook emptyBookState (.success createdBook)).cache "allBooks" =
      some (.listVal [createdBook]) ∧
    mapGet (addBook emptyBookState (.success createdBook)).cache createdBook.id = none ∧
    (addBook emptyBookState (.failure "boom")).books = emptyBookState.books ∧
    (addBook emptyBookState (.failure "boom")).cache = emptyBookState.cache ∧
    (addBook emptyBookState (.failure "boom")).error = some "boom" :=
  C6_addBook_amended createdBook "boom" (by decide)

/-- Claim C7: after a successful updatePassword call the session coordinator
is unauthenticated: logout runs, so the user, profile and settings state are
all cleared and the token store credential is absent. -/
theorem C7_updatePassword_forces_logout (st : AuthState) :
    (updatePassword st (.success ())).user = none ∧
    (updatePassword st (.success ())).profile = none ∧
    (updatePassword st (.success ())).settings = none ∧
    getToken (updatePassword st (.success ())).storage = none :=
  ⟨rfl, rfl, rfl, rfl⟩

/-- Claim C8: searchBooks writes only the searchResults slot: for every
prior state and every server result it leaves the books list and the cache
exactly as a prior fetchAll left them, and on success the results land in
the distinct searchResults set. -/
theorem C8_search_preserves_items (st : BookState) (r : ApiResult (List Book))
    (results : List Book) :
    (searchBooks st r).books = st.books ∧
    (searchBooks st r).cache = st.cache ∧
    (searchBooks st (.success results)).searchResults = results := by
  refine ⟨?_, ?_, rfl⟩ <;> cases r <;> rfl

/-- Claim C9: clearCredential is idempotent: removing the token twice equals
removing it once, and after either the first or the second call the stored
credential is absent. -/
theorem C9_clearCredential_idempotent (s : Storage) :
    removeToken (removeToken s) = removeToken s ∧
    getToken (removeToken s) = none ∧
    getToken (removeToken (removeToken s)) = none :=
  ⟨rfl, rfl, rfl⟩

/-- Claim C10: with no authenticated user every shelf store operation
returns at once: the state (shelves, cache, error and every other field) is
unchanged and no network call is issued, whatever the would-be server result
is. -/
theorem C10_noop_when_unauthenticated (st : ShelfState) (h : st.user = none)
    (shelfId shelfName bookId : String)
    (r1 : ApiResult (List Shelf)) (r2 : ApiResult Shelf) (r3 : ApiResult Shelf)
    (r4 : ApiResult Shelf) (r5 : ApiResult Unit) (r6 r7 : ApiResult Shelf) :
    fetchShelves st r1 = (st, []) ∧
    getShelfById st shelfId r2 = (st, [], .returned none) ∧
    createShelf st shelfName r3 = (st, []) ∧
    updateShelf st shelfId r4 = (st, []) ∧
    deleteShelf st shelfId r5 = (st, []) ∧
    addBookToShelf st shelfId bookId r6 = (st, []) ∧
    removeBookFromShelf st shelfId bookId r7 = (st, []) := by
  refine ⟨?_, ?_, ?_, ?_, ?_, ?_, ?_⟩ <;>
    simp [fetchShelves, getShelfById, createShelf, updateShelf, deleteShelf,
          addBookToShelf, removeBookFromShelf, h]

/-- Claim C10, witness: the theorem applied to the signed-out sample shelf
store, with failing would-be server results. -/
theorem C10_witness :
    fetchShelves signedOutShelfState (.failure "x") = (signedOutShelfState, []) ∧
    getShelfById signedOutShelfState "s1" (.failure "x") =
      (signedOutShelfState, [], .returned none) ∧
    createShelf signedOutShelfState "Favorites" (.failure "x") = (signedOutShelfState, []) ∧
    updateShelf signedOutShelfState "s1" (.failure "x") = (signedOutShelfState, []) ∧
    deleteShelf signedOutShelfState "s1" (.failure "x") = (signedOutShelfState, []) ∧
    addBookToShelf signedOutShelfState "s1" "b1" (.failure "x") = (signedOutShelfState, []) ∧
    removeBookFromShelf signedOutShelfState "s1" "b1" (.failure "x") = (signedOutShelfState, []) :=
  C10_noop_when_unauthenticated signedOutShelfState rfl "s1" "Favorites" "b1"
    (.failure "x") (.failure "x") (.failure "x") (.failure "x") (.failure "x")
    (.failure "x") (.failure "x")

end ShelfLife
